import Mathlib

/-
  Shallow embedding of the dnslookup package (main.go and the CLI entry
  point) in Lean 4.

  Modelling conventions:
  - Go slices that distinguish nil from non-nil are `Option (List _)`:
    `none` is a nil slice, `some l` is a non-nil slice with elements `l`.
    `goAppend` mirrors Go's `append` on such a slice: appending zero
    elements to a nil slice leaves it nil.
  - The external resolver (`net.LookupIP`, `net.LookupCNAME`, ...) is an
    oracle: each accessor receives the response the resolver would give
    on this call, `none` meaning a lookup error and `some v` a success.
  - The package-level `sync.Mutex` is modelled by a boolean lock state
    threaded through the accessor bodies that manipulate it in an
    unbalanced way.  Calling `Unlock` on a mutex that is not held is a
    fatal runtime error in Go; `mutexUnlock` returns
    `Except.error MutexPanic.unlockOfUnlockedMutex` in that case.
  - Accessors return the method result together with the updated record
    and a count (or trace) of the external resolver calls they made, so
    that the caching claims about "number of external resolution calls"
    can be stated directly.
-/

namespace Dnslookup

/-- A mail-exchange entry, mirroring the `net.MX` struct (host and
preference). -/
structure MX where
  host : String
  pref : Nat
deriving DecidableEq

/-- A name-server entry, mirroring the `net.NS` struct. -/
structure NS where
  host : String
deriving DecidableEq

/-- The fatal runtime error raised by Go's `sync.Mutex.Unlock` when the
mutex is not locked. -/
inductive MutexPanic where
  | unlockOfUnlockedMutex
deriving DecidableEq

/-- Go `append` on a possibly-nil slice: appending zero elements returns
the original slice (so a nil slice stays nil), appending at least one
element always yields a non-nil slice. -/
def goAppend {α : Type} : Option (List α) → List α → Option (List α)
  | none, [] => none
  | none, x :: xs => some (x :: xs)
  | some l, xs => some (l ++ xs)

/-- Reading a possibly-nil slice as a sequence: a nil slice reads as the
empty sequence. -/
def slotList {α : Type} : Option (List α) → List α
  | none => []
  | some l => l

/-- The `DnsRecord` struct of main.go: the domain plus the six cached
record slots.  `aRecords`, `mxRecords`, `nsRecords`, `ptrRecords` and
`txtRecords` are slices whose nil state (`none`) means "not yet cached";
`cnameRecords` is a plain string whose empty value is the "not yet
cached" sentinel, exactly as in the source. -/
structure DnsRecord where
  domain : String
  aRecords : Option (List String)
  cnameRecords : String
  mxRecords : Option (List MX)
  nsRecords : Option (List NS)
  ptrRecords : Option (List String)
  txtRecords : Option (List String)
deriving DecidableEq

/-- The `NewDnsRecord` constructor: stores the domain verbatim and leaves
every slot at its zero value (nil slices, empty string). -/
def NewDnsRecord (domainName : String) : DnsRecord :=
  { domain := domainName
    aRecords := none
    cnameRecords := ""
    mxRecords := none
    nsRecords := none
    ptrRecords := none
    txtRecords := none }

/-- `mutex.Lock()`: after the call the mutex is held. -/
def mutexLock (_locked : Bool) : Bool := true

/-- `mutex.Unlock()`: releases a held mutex; unlocking a mutex that is
not held is a fatal runtime error. -/
def mutexUnlock (locked : Bool) : Except MutexPanic Bool :=
  if locked then Except.ok false
  else Except.error MutexPanic.unlockOfUnlockedMutex

/-- Outcome of `GetARecords`: the returned slice (read as a sequence),
the updated record, and how many `net.LookupIP` calls were made. -/
structure AOutcome where
  ret : List String
  st : DnsRecord
  lookups : Nat
deriving DecidableEq

/-- `GetARecords` of main.go.  If the slot is nil it performs the lookup
(`resp` is the oracle response); on success it locks, appends the result
to the slot and unlocks (the lock/unlock pair is balanced inside the
success branch, so the mutex interaction is pure here); on failure the
slot is untouched.  It returns the current slot value. -/
def GetARecords (d : DnsRecord) (resp : Option (List String)) : AOutcome :=
  if d.aRecords = none then
    match resp with
    | some aRecords =>
        let d2 := { d with aRecords := goAppend d.aRecords aRecords }
        { ret := slotList d2.aRecords, st := d2, lookups := 1 }
    | none => { ret := slotList d.aRecords, st := d, lookups := 1 }
  else { ret := slotList d.aRecords, st := d, lookups := 0 }

/-- Outcome of `GetCnameRecords`: the returned string (or the mutex
panic), the updated record, and the number of `net.LookupCNAME` calls. -/
structure CnameOutcome where
  ret : Except MutexPanic String
  st : DnsRecord
  lookups : Nat

/-- `GetCnameRecords` of main.go.  Note the unlock placement in the
source: `mutex.Unlock()` sits after the `if err == nil` block, so on a
successful lookup Lock/Unlock pair up, but on a failed lookup `Unlock`
runs without a preceding `Lock` — a fatal "unlock of unlocked mutex". -/
def GetCnameRecords (d : DnsRecord) (resp : Option String) : CnameOutcome :=
  if d.cnameRecords = "" then
    match resp with
    | some cnameRecords =>
        let locked := mutexLock false
        let d2 := { d with cnameRecords := cnameRecords }
        match mutexUnlock locked with
        | Except.ok _ => { ret := Except.ok d2.cnameRecords, st := d2, lookups := 1 }
        | Except.error e => { ret := Except.error e, st := d2, lookups := 1 }
    | none =>
        match mutexUnlock false with
        | Except.ok _ => { ret := Except.ok d.cnameRecords, st := d, lookups := 1 }
        | Except.error e => { ret := Except.error e, st := d, lookups := 1 }
  else { ret := Except.ok d.cnameRecords, st := d, lookups := 0 }

/-- Outcome of `GetMxRecords`. -/
structure MxOutcome where
  ret : List MX
  st : DnsRecord
  lookups : Nat
deriving DecidableEq

/-- `GetMxRecords` of main.go.  On success the source builds a fresh
slice with `make` and copies the entries, so the slot becomes non-nil
even when the result is empty.  Lock/Unlock are balanced inside the
success branch. -/
def GetMxRecords (d : DnsRecord) (resp : Option (List MX)) : MxOutcome :=
  if d.mxRecords = none then
    match resp with
    | some mxRecords =>
        let d2 := { d with mxRecords := some mxRecords }
        { ret := slotList d2.mxRecords, st := d2, lookups := 1 }
    | none => { ret := slotList d.mxRecords, st := d, lookups := 1 }
  else { ret := slotList d.mxRecords, st := d, lookups := 0 }

/-- Outcome of `GetNsRecords`. -/
structure NsOutcome where
  ret : List NS
  st : DnsRecord
  lookups : Nat
deriving DecidableEq

/-- `GetNsRecords` of main.go: same shape as `GetMxRecords` (`make` +
copy under a balanced Lock/Unlock), returning the slot at the end. -/
def GetNsRecords (d : DnsRecord) (resp : Option (List NS)) : NsOutcome :=
  if d.nsRecords = none then
    match resp with
    | some nsRecords =>
        let d2 := { d with nsRecords := some nsRecords }
        { ret := slotList d2.nsRecords, st := d2, lookups := 1 }
    | none => { ret := slotList d.nsRecords, st := d, lookups := 1 }
  else { ret := slotList d.nsRecords, st := d, lookups := 0 }

/-- Outcome of `GetTxtRecords`. -/
structure TxtOutcome where
  ret : Except MutexPanic (List String)
  st : DnsRecord
  lookups : Nat

/-- `GetTxtRecords` of main.go.  Same unbalanced unlock as
`GetCnameRecords`: `mutex.Unlock()` runs even when the lookup failed and
`mutex.Lock()` was never called. -/
def GetTxtRecords (d : DnsRecord) (resp : Option (List String)) : TxtOutcome :=
  if d.txtRecords = none then
    match resp with
    | some txtRecords =>
        let locked := mutexLock false
        let d2 := { d with txtRecords := some txtRecords }
        match mutexUnlock locked with
        | Except.ok _ => { ret := Except.ok (slotList d2.txtRecords), st := d2, lookups := 1 }
        | Except.error e => { ret := Except.error e, st := d2, lookups := 1 }
    | none =>
        match mutexUnlock false with
        | Except.ok _ => { ret := Except.ok (slotList d.txtRecords), st := d, lookups := 1 }
        | Except.error e => { ret := Except.error e, st := d, lookups := 1 }
  else { ret := Except.ok (slotList d.txtRecords), st := d, lookups := 0 }

/-- The reverse-lookup loop of `GetPtrRecords`: for each address in the
list, call `net.LookupAddr` (oracle `rev`; the error is discarded with
`ptr, _ := ...`, a failed lookup contributing no strings) and append the
result to the pointer slot.  Returns the final slot value and the list
of addresses passed to `net.LookupAddr`, in call order. -/
def revLoop (rev : String → Option (List String)) :
    List String → Option (List String) → Option (List String) × List String
  | [], ptr => (ptr, [])
  | v :: rest, ptr =>
      let res := revLoop rev rest (goAppend ptr ((rev v).getD []))
      (res.fst, v :: res.snd)

/-- Outcome of `GetPtrRecords`: the returned sequence, the updated
record, the trace of reverse-lookup (`net.LookupAddr`) calls made, and
the number of `net.LookupIP` calls made through `GetARecords`. -/
structure PtrOutcome where
  ret : List String
  st : DnsRecord
  revCalls : List String
  aLookups : Nat

/-- `GetPtrRecords` of main.go.  When the pointer slot is nil: if the
address slot is also nil it calls `GetARecords` and then runs the
reverse-lookup loop over the freshly stored addresses; afterwards it
unconditionally runs the same loop a second time over the address slot.
When the address slot was already populated only the unconditional loop
runs. -/
def GetPtrRecords (d : DnsRecord) (aResp : Option (List String))
    (rev : String → Option (List String)) : PtrOutcome :=
  if d.ptrRecords = none then
    let step1 :=
      if d.aRecords = none then
        let ar := GetARecords d aResp
        let pc := revLoop rev (slotList ar.st.aRecords) ar.st.ptrRecords
        ({ ar.st with ptrRecords := pc.fst }, pc.snd, ar.lookups)
      else (d, ([] : List String), 0)
    let d1 := step1.fst
    let pc2 := revLoop rev (slotList d1.aRecords) d1.ptrRecords
    let d2 := { d1 with ptrRecords := pc2.fst }
    { ret := slotList d2.ptrRecords, st := d2,
      revCalls := step1.snd.fst ++ pc2.snd, aLookups := step1.snd.snd }
  else { ret := slotList d.ptrRecords, st := d, revCalls := [], aLookups := 0 }

/-- The heterogeneous values stored in the map returned by
`GetAllRecords` (Go `map[string]interface\x7b\x7d`). -/
inductive RecVal where
  | ips (l : List String)
  | str (s : String)
  | mxs (l : List MX)
  | nss (l : List NS)
  | strs (l : List String)
deriving DecidableEq

/-- Outcome of `GetAllRecords`: either the assembled key/value map or
the mutex panic that aborted it, together with the record state reached
(mutations made before a panic persist on the heap-allocated record). -/
structure AllOutcome where
  ret : Except MutexPanic (List (String × RecVal))
  st : DnsRecord

/-- `GetAllRecords` of main.go: calls the six accessors in source order
(A, CNAME, MX, NS, PTR, TXT) and stores each result under its fixed key.
A mutex panic inside `GetCnameRecords` or `GetTxtRecords` aborts the
method before the map is returned. -/
def GetAllRecords (d : DnsRecord) (aResp : Option (List String))
    (cnameResp : Option String) (mxResp : Option (List MX))
    (nsResp : Option (List NS)) (rev : String → Option (List String))
    (txtResp : Option (List String)) : AllOutcome :=
  let ar := GetARecords d aResp
  let cr := GetCnameRecords ar.st cnameResp
  match cr.ret with
  | Except.error e => { ret := Except.error e, st := cr.st }
  | Except.ok cv =>
      let mr := GetMxRecords cr.st mxResp
      let nr := GetNsRecords mr.st nsResp
      let pr := GetPtrRecords nr.st aResp rev
      let tr := GetTxtRecords pr.st txtResp
      match tr.ret with
      | Except.error e => { ret := Except.error e, st := tr.st }
      | Except.ok tv =>
          { ret := Except.ok
              [("A records", RecVal.ips ar.ret),
               ("CNAME records", RecVal.str cv),
               ("MX records", RecVal.mxs mr.ret),
               ("NS records", RecVal.nss nr.ret),
               ("PTR records", RecVal.strs pr.ret),
               ("TXT records", RecVal.strs tv)]
            st := tr.st }

/-- One accessor invocation on a `DnsRecord`, carrying the resolver
responses that call would observe. -/
inductive Call where
  | a (resp : Option (List String))
  | cname (resp : Option String)
  | mx (resp : Option (List MX))
  | ns (resp : Option (List NS))
  | ptr (aResp : Option (List String)) (rev : String → Option (List String))
  | txt (resp : Option (List String))
  | allRecs (aResp : Option (List String)) (cnameResp : Option String)
      (mxResp : Option (List MX)) (nsResp : Option (List NS))
      (rev : String → Option (List String)) (txtResp : Option (List String))

/-- The record state after one accessor invocation (the state is
meaningful even when the call ends in a mutex panic: mutations made
before the panic persist). -/
def stepCall (d : DnsRecord) : Call → DnsRecord
  | Call.a resp => (GetARecords d resp).st
  | Call.cname resp => (GetCnameRecords d resp).st
  | Call.mx resp => (GetMxRecords d resp).st
  | Call.ns resp => (GetNsRecords d resp).st
  | Call.ptr aResp rev => (GetPtrRecords d aResp rev).st
  | Call.txt resp => (GetTxtRecords d resp).st
  | Call.allRecs aR cR mR nR rev tR => (GetAllRecords d aR cR mR nR rev tR).st

/-- The record state after a sequence of accessor invocations. -/
def run (d : DnsRecord) : List Call → DnsRecord
  | [] => d
  | c :: cs => run (stepCall d c) cs

/-- Populated slots survive a state transition: every slot of `d` that
is out of its "not yet cached" sentinel state (non-nil slice, non-empty
canonical-name string) holds the same value in `d2`. -/
def slotPreserved (d d2 : DnsRecord) : Prop :=
  (d.aRecords ≠ none → d2.aRecords = d.aRecords) ∧
  (d.cnameRecords ≠ "" → d2.cnameRecords = d.cnameRecords) ∧
  (d.mxRecords ≠ none → d2.mxRecords = d.mxRecords) ∧
  (d.nsRecords ≠ none → d2.nsRecords = d.nsRecords) ∧
  (d.ptrRecords ≠ none → d2.ptrRecords = d.ptrRecords) ∧
  (d.txtRecords ≠ none → d2.txtRecords = d.txtRecords)

/-- The search-type whitelist of the CLI entry point. -/
def searchOptions : List String := ["a", "all", "cname", "mx", "ns", "ptr", "txt"]

/-- The loop body of `isValidSearchType`: Go iterates the options,
returning true on the first match and otherwise setting `found` to
false and continuing; after the loop it returns `found`. -/
def searchLoop (searchType : String) : List String → Bool → Bool
  | [], found => found
  | v :: rest, _found =>
      if searchType ≠ v then searchLoop searchType rest false else true

/-- `isValidSearchType` of the CLI source: `found` starts at `true` and
the options list is scanned as in the source loop. -/
def isValidSearchType (searchType : String) : Bool :=
  searchLoop searchType searchOptions true

/-- What the CLI `main` does after flag parsing: either print the usage
message and return (no lookup), or perform the lookup selected by the
search type. -/
inductive CliAction where
  | usage
  | lookup (searchType : String) (domain : String)
deriving DecidableEq

/-- The decision logic of `main` in the CLI source: flags default to the
empty string when absent; a `DnsRecord` is constructed (no lookup), then
only the search type is validated — the domain is never checked — and a
valid search type always reaches the lookup switch. -/
def mainAction (domain searchType : String) : CliAction :=
  if !(isValidSearchType searchType) then CliAction.usage
  else CliAction.lookup searchType domain

/-- A record with every slot populated, used as a concrete input. -/
def sampleRecord : DnsRecord :=
  { domain := "example.com"
    aRecords := some ["93.184.216.34"]
    cnameRecords := "example.com."
    mxRecords := some [{ host := ".", pref := 0 }]
    nsRecords := some [{ host := "a.iana-servers.net." }]
    ptrRecords := some ["example.com."]
    txtRecords := some ["v=spf1 -all"] }

/-- A concrete sequence of accessor invocations. -/
def sampleCalls : List Call :=
  [Call.a none, Call.cname (some "other.example."), Call.mx none,
   Call.ns none, Call.ptr (some ["10.0.0.1"]) (fun _ => some ["h."]),
   Call.txt (some ["replacement"]),
   Call.allRecs none none none none (fun _ => none) none]

/- Helper lemmas about the slice model. -/

theorem slotList_goAppend_none (xs : List String) :
    slotList (goAppend none xs) = xs := by
  cases xs <;> rfl

theorem goAppend_none_ne_nil (xs : List String) (h : xs ≠ []) :
    goAppend (none : Option (List String)) xs = some xs := by
  cases xs with
  | nil => exact absurd rfl h
  | cons x xs => rfl

/- C1: the failure path of GetCnameRecords and GetTxtRecords. -/

/-- C1: the claim says a failed lookup makes `GetCnameRecords` and
`GetTxtRecords` return normally with the empty slot value; in the code
the failure path calls `mutex.Unlock()` without a preceding
`mutex.Lock()`, a fatal "unlock of unlocked mutex" runtime error, so on
a fresh record with a failing resolver both methods abort instead of
returning. -/
theorem getCname_getTxt_panic_on_failed_lookup :
    (GetCnameRecords (NewDnsRecord "example.com") none).ret
        = Except.error MutexPanic.unlockOfUnlockedMutex ∧
    (GetTxtRecords (NewDnsRecord "example.com") none).ret
        = Except.error MutexPanic.unlockOfUnlockedMutex := by
  exact ⟨rfl, rfl⟩

/- C2: the duplicated reverse-lookup loop in GetPtrRecords. -/

/-- C2: the claim says a first `GetPtrRecords` invocation performs
exactly n reverse lookups for an address list of length n; on a fresh
record whose address resolver yields the single address
`93.184.216.34`, the code queries that address twice (2n = 2 calls):
once in the `aRecords == nil` branch and once in the unconditional loop
that follows it. -/
theorem getPtrRecords_first_call_double_lookup :
    (GetPtrRecords (NewDnsRecord "example.com") (some ["93.184.216.34"])
        (fun _ => some ["example.com."])).revCalls
      = ["93.184.216.34", "93.184.216.34"] ∧
    slotList (GetARecords (NewDnsRecord "example.com")
        (some ["93.184.216.34"])).st.aRecords = ["93.184.216.34"] := by
  exact ⟨rfl, rfl⟩

/- C5: GetAllRecords under failing resolvers. -/

/-- C5: the claim says `GetAllRecords` returns the complete six-key map
for every outcome of the six resolver calls, including all six failing;
with all six resolvers failing the code aborts inside `GetCnameRecords`
with the "unlock of unlocked mutex" runtime error and no map is
returned. -/
theorem getAllRecords_panics_when_resolvers_fail :
    (GetAllRecords (NewDnsRecord "example.com") none none none none
        (fun _ => none) none).ret
      = Except.error MutexPanic.unlockOfUnlockedMutex := by
  exact rfl

theorem getCnameRecords_some_ok (d : DnsRecord) (c : String) :
    ∃ v, (GetCnameRecords d (some c)).ret = Except.ok v := by
  by_cases hc : d.cnameRecords = "" <;>
    simp [GetCnameRecords, hc, mutexLock, mutexUnlock]

theorem getTxtRecords_some_ok (d : DnsRecord) (ts : List String) :
    ∃ v, (GetTxtRecords d (some ts)).ret = Except.ok v := by
  by_cases ht : d.txtRecords = none <;>
    simp [GetTxtRecords, ht, mutexLock, mutexUnlock]

/-- Supporting fact for C5: the mutex panic is the only obstacle — when
the CNAME and TXT resolutions succeed (the other four resolvers may
fail), `GetAllRecords` does return a map whose keys are exactly the six
fixed labels in source order. -/
theorem getAllRecords_keys_complete_when_no_panic (d : DnsRecord)
    (aR : Option (List String)) (c : String) (mR : Option (List MX))
    (nR : Option (List NS)) (rev : String → Option (List String))
    (ts : List String) :
    ∃ m, (GetAllRecords d aR (some c) mR nR rev (some ts)).ret
        = Except.ok m ∧
      m.map Prod.fst = ["A records", "CNAME records", "MX records",
        "NS records", "PTR records", "TXT records"] := by
  obtain ⟨cv, hcv⟩ := getCnameRecords_some_ok (GetARecords d aR).st c
  obtain ⟨tv, htv⟩ := getTxtRecords_some_ok
    (GetPtrRecords (GetNsRecords (GetMxRecords (GetCnameRecords
      (GetARecords d aR).st (some c)).st mR).st nR).st aR rev).st ts
  unfold GetAllRecords
  dsimp only
  rw [hcv]
  dsimp only
  rw [htv]
  exact ⟨_, rfl, rfl⟩

/- C3: caching on the second call. -/

/-- C3 counterexample: on a fresh record, an A lookup that succeeds with
zero records performs one resolution call but leaves the slot nil, so
the immediately following `GetARecords` call performs a second
resolution call instead of being served from cache. -/
theorem second_call_not_cached_after_empty_success :
    (GetARecords (NewDnsRecord "example.com") (some [])).lookups = 1 ∧
    (GetARecords (GetARecords (NewDnsRecord "example.com") (some [])).st
        (some [])).lookups = 1 := by
  exact ⟨rfl, rfl⟩

theorem getARecords_second_cached (d : DnsRecord) (xs : List String)
    (r2 : Option (List String)) (hxs : xs ≠ []) :
    (GetARecords d (some xs)).lookups ≤ 1 ∧
    (GetARecords (GetARecords d (some xs)).st r2).lookups = 0 ∧
    (GetARecords (GetARecords d (some xs)).st r2).ret
      = (GetARecords d (some xs)).ret := by
  by_cases hA : d.aRecords = none
  · simp [GetARecords, hA, goAppend_none_ne_nil xs hxs]
  · simp [GetARecords, hA]

theorem getCnameRecords_second_cached (d : DnsRecord) (c : String)
    (c2 : Option String) (hc : c ≠ "") :
    (GetCnameRecords d (some c)).lookups ≤ 1 ∧
    (GetCnameRecords (GetCnameRecords d (some c)).st c2).lookups = 0 ∧
    (GetCnameRecords (GetCnameRecords d (some c)).st c2).ret
      = (GetCnameRecords d (some c)).ret := by
  by_cases hcn : d.cnameRecords = ""
  · simp [GetCnameRecords, hcn, mutexLock, mutexUnlock, hc]
  · simp [GetCnameRecords, hcn]

theorem getMxRecords_second_cached (d : DnsRecord) (ms : List MX)
    (m2 : Option (List MX)) :
    (GetMxRecords d (some ms)).lookups ≤ 1 ∧
    (GetMxRecords (GetMxRecords d (some ms)).st m2).lookups = 0 ∧
    (GetMxRecords (GetMxRecords d (some ms)).st m2).ret
      = (GetMxRecords d (some ms)).ret := by
  by_cases h : d.mxRecords = none <;> simp [GetMxRecords, h]

theorem getNsRecords_second_cached (d : DnsRecord) (nl : List NS)
    (n2 : Option (List NS)) :
    (GetNsRecords d (some nl)).lookups ≤ 1 ∧
    (GetNsRecords (GetNsRecords d (some nl)).st n2).lookups = 0 ∧
    (GetNsRecords (GetNsRecords d (some nl)).st n2).ret
      = (GetNsRecords d (some nl)).ret := by
  by_cases h : d.nsRecords = none <;> simp [GetNsRecords, h]

theorem getTxtRecords_second_cached (d : DnsRecord) (ts : List String)
    (t2 : Option (List String)) :
    (GetTxtRecords d (some ts)).lookups ≤ 1 ∧
    (GetTxtRecords (GetTxtRecords d (some ts)).st t2).lookups = 0 ∧
    (GetTxtRecords (GetTxtRecords d (some ts)).st t2).ret
      = (GetTxtRecords d (some ts)).ret := by
  by_cases h : d.txtRecords = none <;>
    simp [GetTxtRecords, h, mutexLock, mutexUnlock]

/-- C3 (amended): calling the same accessor twice in sequence triggers
at most one external resolution call for that kind, the second call
being served from cache — provided the first resolution succeeded with
a non-empty result for the A and CNAME slots (a successful A resolution
with zero records leaves the nil slot unchanged and a successful CNAME
resolution with the empty string leaves the sentinel unchanged, so the
second call resolves again for those kinds); for MX, NS and TXT even an
empty successful result is cached. -/
theorem accessor_cached_after_nonempty_success
    (d : DnsRecord) (xs : List String) (c : String) (ms : List MX)
    (nl : List NS) (ts : List String) (r2 : Option (List String))
    (c2 : Option String) (m2 : Option (List MX)) (n2 : Option (List NS))
    (t2 : Option (List String)) (hxs : xs ≠ []) (hc : c ≠ "") :
    ((GetARecords d (some xs)).lookups ≤ 1 ∧
     (GetARecords (GetARecords d (some xs)).st r2).lookups = 0 ∧
     (GetARecords (GetARecords d (some xs)).st r2).ret
        = (GetARecords d (some xs)).ret) ∧
    ((GetCnameRecords d (some c)).lookups ≤ 1 ∧
     (GetCnameRecords (GetCnameRecords d (some c)).st c2).lookups = 0 ∧
     (GetCnameRecords (GetCnameRecords d (some c)).st c2).ret
        = (GetCnameRecords d (some c)).ret) ∧
    ((GetMxRecords d (some ms)).lookups ≤ 1 ∧
     (GetMxRecords (GetMxRecords d (some ms)).st m2).lookups = 0 ∧
     (GetMxRecords (GetMxRecords d (some ms)).st m2).ret
        = (GetMxRecords d (some ms)).ret) ∧
    ((GetNsRecords d (some nl)).lookups ≤ 1 ∧
     (GetNsRecords (GetNsRecords d (some nl)).st n2).lookups = 0 ∧
     (GetNsRecords (GetNsRecords d (some nl)).st n2).ret
        = (GetNsRecords d (some nl)).ret) ∧
    ((GetTxtRecords d (some ts)).lookups ≤ 1 ∧
     (GetTxtRecords (GetTxtRecords d (some ts)).st t2).lookups = 0 ∧
     (GetTxtRecords (GetTxtRecords d (some ts)).st t2).ret
        = (GetTxtRecords d (some ts)).ret) :=
  ⟨getARecords_second_cached d xs r2 hxs,
   getCnameRecords_second_cached d c c2 hc,
   getMxRecords_second_cached d ms m2,
   getNsRecords_second_cached d nl n2,
   getTxtRecords_second_cached d ts t2⟩

/-- C3 witness: the amended theorem at a fresh record with concrete
non-empty results; the second A and CNAME calls make no resolver call. -/
theorem accessor_cached_after_nonempty_success_witness :
    (GetARecords (GetARecords (NewDnsRecord "example.com")
        (some ["93.184.216.34"])).st none).lookups = 0 ∧
    (GetCnameRecords (GetCnameRecords (NewDnsRecord "example.com")
        (some "example.com.")).st none).lookups = 0 :=
  ⟨(accessor_cached_after_nonempty_success (NewDnsRecord "example.com")
      ["93.184.216.34"] "example.com." [] [] [] none none none none none
      (by decide) (by decide)).1.2.1,
   (accessor_cached_after_nonempty_success (NewDnsRecord "example.com")
      ["93.184.216.34"] "example.com." [] [] [] none none none none none
      (by decide) (by decide)).2.1.2.1⟩

/- C6: failed resolutions are not cached and the retry succeeds. -/

/-- C6: a failed resolution leaves the slot in "not yet cached" state
(shown for the A and TXT slots, as in the claim): the failing call still
performs one lookup and mutates nothing, and a subsequent call performs
the external lookup again; when that retry succeeds the accessor returns
the successful result.  (The failing CNAME/TXT call additionally raises
the mutex panic recorded under C1; the slot is nonetheless untouched.) -/
theorem failed_resolution_retried_and_succeeds
    (d : DnsRecord) (xs ts : List String)
    (ha : d.aRecords = none) (ht : d.txtRecords = none) :
    ((GetARecords d none).st.aRecords = none ∧
     (GetARecords d none).lookups = 1 ∧
     (GetARecords (GetARecords d none).st (some xs)).lookups = 1 ∧
     (GetARecords (GetARecords d none).st (some xs)).ret = xs) ∧
    ((GetTxtRecords d none).st.txtRecords = none ∧
     (GetTxtRecords d none).lookups = 1 ∧
     (GetTxtRecords (GetTxtRecords d none).st (some ts)).lookups = 1 ∧
     (GetTxtRecords (GetTxtRecords d none).st (some ts)).ret
        = Except.ok ts) := by
  constructor
  · simp [GetARecords, ha, slotList_goAppend_none]
  · simp [GetTxtRecords, ht, mutexLock, mutexUnlock, slotList]

/-- C6 witness: a failed A and TXT lookup on a fresh record followed by
a successful retry, whose value the accessor returns. -/
theorem failed_resolution_retried_and_succeeds_witness :
    (GetARecords (GetARecords (NewDnsRecord "example.com") none).st
        (some ["93.184.216.34"])).ret = ["93.184.216.34"] ∧
    (GetTxtRecords (GetTxtRecords (NewDnsRecord "example.com") none).st
        (some ["v=spf1 -all"])).ret = Except.ok ["v=spf1 -all"] :=
  ⟨(failed_resolution_retried_and_succeeds (NewDnsRecord "example.com")
      ["93.184.216.34"] ["v=spf1 -all"] rfl rfl).1.2.2.2,
   (failed_resolution_retried_and_succeeds (NewDnsRecord "example.com")
      ["93.184.216.34"] ["v=spf1 -all"] rfl rfl).2.2.2.2⟩

/- C7: pointer accessor on an empty address list. -/

/-- C7: when the pointer slot is not yet cached and the address resolver
succeeds with an empty list, `GetPtrRecords` performs zero reverse
lookups and returns the empty sequence. -/
theorem getPtr_empty_success_no_reverse_calls
    (d : DnsRecord) (rev : String → Option (List String))
    (hp : d.ptrRecords = none) (ha : d.aRecords = none) :
    (GetPtrRecords d (some []) rev).revCalls = [] ∧
    (GetPtrRecords d (some []) rev).ret = [] := by
  simp [GetPtrRecords, hp, ha, GetARecords, goAppend, slotList, revLoop]

/-- C7 witness: the theorem at a fresh record with a reverse resolver
that would answer, showing it is never consulted. -/
theorem getPtr_empty_success_no_reverse_calls_witness :
    (GetPtrRecords (NewDnsRecord "example.com") (some [])
        (fun _ => some ["example.com."])).revCalls = [] ∧
    (GetPtrRecords (NewDnsRecord "example.com") (some [])
        (fun _ => some ["example.com."])).ret = [] :=
  getPtr_empty_success_no_reverse_calls (NewDnsRecord "example.com")
    (fun _ => some ["example.com."]) rfl rfl

/- C4: populated slots are never overwritten. -/

theorem slotPreserved_refl (d : DnsRecord) : slotPreserved d d := by
  simp [slotPreserved]

theorem slotPreserved_trans {d1 d2 d3 : DnsRecord}
    (h1 : slotPreserved d1 d2) (h2 : slotPreserved d2 d3) :
    slotPreserved d1 d3 := by
  refine ⟨fun h => ?_, fun h => ?_, fun h => ?_, fun h => ?_, fun h => ?_,
    fun h => ?_⟩
  · rw [h2.1 (by rw [h1.1 h]; exact h), h1.1 h]
  · rw [h2.2.1 (by rw [h1.2.1 h]; exact h), h1.2.1 h]
  · rw [h2.2.2.1 (by rw [h1.2.2.1 h]; exact h), h1.2.2.1 h]
  · rw [h2.2.2.2.1 (by rw [h1.2.2.2.1 h]; exact h), h1.2.2.2.1 h]
  · rw [h2.2.2.2.2.1 (by rw [h1.2.2.2.2.1 h]; exact h), h1.2.2.2.2.1 h]
  · rw [h2.2.2.2.2.2 (by rw [h1.2.2.2.2.2 h]; exact h), h1.2.2.2.2.2 h]

theorem getARecords_slotPreserved (d : DnsRecord) (r : Option (List String)) :
    slotPreserved d (GetARecords d r).st := by
  by_cases hA : d.aRecords = none
  · cases r <;> simp [GetARecords, hA, slotPreserved]
  · simp [GetARecords, hA, slotPreserved_refl]

theorem getCnameRecords_slotPreserved (d : DnsRecord) (r : Option String) :
    slotPreserved d (GetCnameRecords d r).st := by
  by_cases hc : d.cnameRecords = ""
  · cases r <;>
      simp [GetCnameRecords, hc, mutexLock, mutexUnlock, slotPreserved]
  · simp [GetCnameRecords, hc, slotPreserved_refl]

theorem getMxRecords_slotPreserved (d : DnsRecord) (r : Option (List MX)) :
    slotPreserved d (GetMxRecords d r).st := by
  by_cases hm : d.mxRecords = none
  · cases r <;> simp [GetMxRecords, hm, slotPreserved]
  · simp [GetMxRecords, hm, slotPreserved_refl]

theorem getNsRecords_slotPreserved (d : DnsRecord) (r : Option (List NS)) :
    slotPreserved d (GetNsRecords d r).st := by
  by_cases hn : d.nsRecords = none
  · cases r <;> simp [GetNsRecords, hn, slotPreserved]
  · simp [GetNsRecords, hn, slotPreserved_refl]

theorem getTxtRecords_slotPreserved (d : DnsRecord) (r : Option (List String)) :
    slotPreserved d (GetTxtRecords d r).st := by
  by_cases ht : d.txtRecords = none
  · cases r <;>
      simp [GetTxtRecords, ht, mutexLock, mutexUnlock, slotPreserved]
  · simp [GetTxtRecords, ht, slotPreserved_refl]

theorem getPtrRecords_slotPreserved (d : DnsRecord)
    (aResp : Option (List String)) (rev : String → Option (List String)) :
    slotPreserved d (GetPtrRecords d aResp rev).st := by
  by_cases hp : d.ptrRecords = none
  · by_cases ha : d.aRecords = none
    · have hA := getARecords_slotPreserved d aResp
      refine ⟨fun h => ?_, fun h => ?_, fun h => ?_, fun h => ?_, fun h => ?_,
        fun h => ?_⟩
      · simpa [GetPtrRecords, hp, ha] using hA.1 h
      · simpa [GetPtrRecords, hp, ha] using hA.2.1 h
      · simpa [GetPtrRecords, hp, ha] using hA.2.2.1 h
      · simpa [GetPtrRecords, hp, ha] using hA.2.2.2.1 h
      · exact absurd hp h
      · simpa [GetPtrRecords, hp, ha] using hA.2.2.2.2.2 h
    · refine ⟨fun h => ?_, fun h => ?_, fun h => ?_, fun h => ?_, fun h => ?_,
        fun h => ?_⟩
      · simp [GetPtrRecords, hp, ha]
      · simp [GetPtrRecords, hp, ha]
      · simp [GetPtrRecords, hp, ha]
      · simp [GetPtrRecords, hp, ha]
      · exact absurd hp h
      · simp [GetPtrRecords, hp, ha]
  · simp [GetPtrRecords, hp, slotPreserved_refl]

theorem getAllRecords_slotPreserved (d : DnsRecord)
    (aR : Option (List String)) (cR : Option String) (mR : Option (List MX))
    (nR : Option (List NS)) (rev : String → Option (List String))
    (tR : Option (List String)) :
    slotPreserved d (GetAllRecords d aR cR mR nR rev tR).st := by
  have h12 := slotPreserved_trans (getARecords_slotPreserved d aR)
    (getCnameRecords_slotPreserved (GetARecords d aR).st cR)
  have h13 := slotPreserved_trans h12
    (getMxRecords_slotPreserved (GetCnameRecords (GetARecords d aR).st cR).st
      mR)
  have h14 := slotPreserved_trans h13
    (getNsRecords_slotPreserved
      (GetMxRecords (GetCnameRecords (GetARecords d aR).st cR).st mR).st nR)
  have h15 := slotPreserved_trans h14
    (getPtrRecords_slotPreserved
      (GetNsRecords (GetMxRecords (GetCnameRecords (GetARecords d aR).st
        cR).st mR).st nR).st aR rev)
  have h16 := slotPreserved_trans h15
    (getTxtRecords_slotPreserved
      (GetPtrRecords (GetNsRecords (GetMxRecords (GetCnameRecords
        (GetARecords d aR).st cR).st mR).st nR).st aR rev).st tR)
  unfold GetAllRecords
  dsimp only
  split
  · exact h12
  · split
    · exact h16
    · exact h16

theorem stepCall_slotPreserved (d : DnsRecord) (c : Call) :
    slotPreserved d (stepCall d c) := by
  cases c with
  | a r => exact getARecords_slotPreserved d r
  | cname r => exact getCnameRecords_slotPreserved d r
  | mx r => exact getMxRecords_slotPreserved d r
  | ns r => exact getNsRecords_slotPreserved d r
  | ptr aR rev => exact getPtrRecords_slotPreserved d aR rev
  | txt r => exact getTxtRecords_slotPreserved d r
  | allRecs aR cR mR nR rev tR =>
      exact getAllRecords_slotPreserved d aR cR mR nR rev tR

theorem run_slotPreserved (d : DnsRecord) (cs : List Call) :
    slotPreserved d (run d cs) := by
  induction cs generalizing d with
  | nil => exact slotPreserved_refl d
  | cons c cs ih =>
      exact slotPreserved_trans (stepCall_slotPreserved d c) (ih (stepCall d c))

/-- C4: every slot that is out of its "not yet cached" state (non-nil
slice, non-empty canonical-name string) keeps exactly its stored value
across any later sequence of accessor invocations: each accessor writes
its slot only when the slot is in the sentinel state, so the first
resolution that moves a slot out of the sentinel state wins. -/
theorem populated_slots_never_overwritten (d : DnsRecord) (cs : List Call) :
    slotPreserved d (run d cs) :=
  run_slotPreserved d cs

/-- C4 witness: a record with every slot populated, run through a
concrete sequence of accessor invocations (with resolvers offering new
values); the A and CNAME slots still hold their original values. -/
theorem populated_slots_never_overwritten_witness :
    (run sampleRecord sampleCalls).aRecords = some ["93.184.216.34"] ∧
    (run sampleRecord sampleCalls).cnameRecords = "example.com." :=
  ⟨(populated_slots_never_overwritten sampleRecord sampleCalls).1 (by decide),
   (populated_slots_never_overwritten sampleRecord sampleCalls).2.1
      (by decide)⟩

/- C8: the domain is stored verbatim and never mutated. -/

theorem getARecords_domain (d : DnsRecord) (r : Option (List String)) :
    (GetARecords d r).st.domain = d.domain := by
  by_cases hA : d.aRecords = none
  · cases r <;> simp [GetARecords, hA]
  · simp [GetARecords, hA]

theorem getCnameRecords_domain (d : DnsRecord) (r : Option String) :
    (GetCnameRecords d r).st.domain = d.domain := by
  by_cases hc : d.cnameRecords = ""
  · cases r <;> simp [GetCnameRecords, hc, mutexLock, mutexUnlock]
  · simp [GetCnameRecords, hc]

theorem getMxRecords_domain (d : DnsRecord) (r : Option (List MX)) :
    (GetMxRecords d r).st.domain = d.domain := by
  by_cases hm : d.mxRecords = none
  · cases r <;> simp [GetMxRecords, hm]
  · simp [GetMxRecords, hm]

theorem getNsRecords_domain (d : DnsRecord) (r : Option (List NS)) :
    (GetNsRecords d r).st.domain = d.domain := by
  by_cases hn : d.nsRecords = none
  · cases r <;> simp [GetNsRecords, hn]
  · simp [GetNsRecords, hn]

theorem getTxtRecords_domain (d : DnsRecord) (r : Option (List String)) :
    (GetTxtRecords d r).st.domain = d.domain := by
  by_cases ht : d.txtRecords = none
  · cases r <;> simp [GetTxtRecords, ht, mutexLock, mutexUnlock]
  · simp [GetTxtRecords, ht]

theorem getPtrRecords_domain (d : DnsRecord) (aR : Option (List String))
    (rev : String → Option (List String)) :
    (GetPtrRecords d aR rev).st.domain = d.domain := by
  by_cases hp : d.ptrRecords = none
  · by_cases ha : d.aRecords = none
    · simpa [GetPtrRecords, hp, ha] using getARecords_domain d aR
    · simp [GetPtrRecords, hp, ha]
  · simp [GetPtrRecords, hp]

theorem getAllRecords_domain (d : DnsRecord)
    (aR : Option (List String)) (cR : Option String) (mR : Option (List MX))
    (nR : Option (List NS)) (rev : String → Option (List String))
    (tR : Option (List String)) :
    (GetAllRecords d aR cR mR nR rev tR).st.domain = d.domain := by
  have h12 := (getCnameRecords_domain (GetARecords d aR).st cR).trans
    (getARecords_domain d aR)
  have h13 := (getMxRecords_domain (GetCnameRecords (GetARecords d aR).st
    cR).st mR).trans h12
  have h14 := (getNsRecords_domain
    (GetMxRecords (GetCnameRecords (GetARecords d aR).st cR).st mR).st
    nR).trans h13
  have h15 := (getPtrRecords_domain
    (GetNsRecords (GetMxRecords (GetCnameRecords (GetARecords d aR).st
      cR).st mR).st nR).st aR rev).trans h14
  have h16 := (getTxtRecords_domain
    (GetPtrRecords (GetNsRecords (GetMxRecords (GetCnameRecords
      (GetARecords d aR).st cR).st mR).st nR).st aR rev).st tR).trans h15
  unfold GetAllRecords
  dsimp only
  split
  · exact h12
  · split
    · exact h16
    · exact h16

theorem stepCall_domain (d : DnsRecord) (c : Call) :
    (stepCall d c).domain = d.domain := by
  cases c with
  | a r => exact getARecords_domain d r
  | cname r => exact getCnameRecords_domain d r
  | mx r => exact getMxRecords_domain d r
  | ns r => exact getNsRecords_domain d r
  | ptr aR rev => exact getPtrRecords_domain d aR rev
  | txt r => exact getTxtRecords_domain d r
  | allRecs aR cR mR nR rev tR =>
      exact getAllRecords_domain d aR cR mR nR rev tR

theorem run_domain (d : DnsRecord) (cs : List Call) :
    (run d cs).domain = d.domain := by
  induction cs generalizing d with
  | nil => rfl
  | cons c cs ih => exact (ih (stepCall d c)).trans (stepCall_domain d c)

/-- C8: the constructor stores the given domain string verbatim (and
always succeeds, being a total function), and no sequence of accessor
invocations ever changes the domain field. -/
theorem domain_stored_verbatim_never_mutated (s : String) (cs : List Call) :
    (NewDnsRecord s).domain = s ∧ (run (NewDnsRecord s) cs).domain = s :=
  ⟨rfl, run_domain (NewDnsRecord s) cs⟩

/- C9: the CLI decision logic. -/

/-- C9 counterexample: with the domain flag missing (empty string) and a
valid search type `a`, `main` does not print the usage message — it
proceeds to the A-record lookup with the empty domain. -/
theorem main_missing_domain_still_looks_up :
    mainAction "" "a" = CliAction.lookup "a" "" ∧
    mainAction "" "a" ≠ CliAction.usage := by
  exact ⟨rfl, by decide⟩

/-- C9 (amended): an invalid or missing search-type argument (the flag
defaults to the empty string, which is not a valid search type) makes
`main` print the usage message and return without performing any
lookup; the domain argument is never validated. -/
theorem main_invalid_search_type_usage (d s : String)
    (h : isValidSearchType s = false) : mainAction d s = CliAction.usage := by
  simp [mainAction, h]

/-- C9 witness: the amended theorem applied at the missing search type
(empty string) and at a concrete invalid search type. -/
theorem main_invalid_search_type_usage_witness :
    mainAction "example.net" "" = CliAction.usage ∧
    mainAction "example.net" "bogus" = CliAction.usage := by
  exact ⟨main_invalid_search_type_usage "example.net" "" (by decide),
    main_invalid_search_type_usage "example.net" "bogus" (by decide)⟩

/- C10: isValidSearchType. -/

theorem searchLoop_false_iff (s : String) (l : List String) :
    searchLoop s l false = true ↔ s ∈ l := by
  induction l with
  | nil => simp [searchLoop]
  | cons v rest ih =>
      by_cases h : s = v
      · simp [searchLoop, h]
      · simp [searchLoop, h, ih]

/-- C10: `isValidSearchType` accepts exactly the seven search-type
strings of the CLI whitelist, and in particular rejects the empty
string. -/
theorem isValidSearchType_iff (s : String) :
    (isValidSearchType s = true ↔
      s = "a" ∨ s = "all" ∨ s = "cname" ∨ s = "mx" ∨ s = "ns" ∨
      s = "ptr" ∨ s = "txt") ∧
    isValidSearchType "" = false := by
  refine ⟨?_, by decide⟩
  by_cases h : s = "a"
  · simp [isValidSearchType, searchOptions, searchLoop, h]
  · simp only [isValidSearchType, searchOptions, searchLoop, h, ne_eq,
      not_false_iff, if_true]
    split_ifs <;> simp_all

end Dnslookup
